import Mathlib

/-!
Shallow embedding of the relevant parts of `jira_test_generator.py`
(repository kunnath/deepcase), together with theorems settling the
frozen claims about it.

Conventions of the embedding:
* Python strings are Lean `String`s; `s.lower()` / `s.upper()` become
  `pyLower` / `pyUpper` (ASCII case mapping, which agrees with Python on
  the ASCII keyword tables the code uses).
* Python slicing `s[:n]` becomes `pyTake s n`.
* `keyword in text` (substring test) becomes `strHasSub text keyword`.
* Fallible effects (HTTP requests, JSON parsing, file IO) are modelled
  with `Except String` / explicit outcome values, so that every wrapper
  is a total function whose error branch mirrors the `except` branch of
  the source.
-/

set_option linter.unusedVariables false

/-- Model of Python `str.lower()` (ASCII case mapping). -/
def pyLower (s : String) : String := String.mk (s.toList.map Char.toLower)

/-- Model of Python `str.upper()` (ASCII case mapping). -/
def pyUpper (s : String) : String := String.mk (s.toList.map Char.toUpper)

/-- Model of Python slicing `s[:n]`: the first `n` characters. -/
def pyTake (s : String) (n : Nat) : String := String.mk (s.toList.take n)

/-- `listHasPre hay needle`: `needle` occurs at the start of `hay`. -/
def listHasPre : List Char → List Char → Bool
  | _, [] => true
  | [], _ :: _ => false
  | a :: as, b :: bs => a == b && listHasPre as bs

/-- `listHasSub needle hay`: `needle` occurs contiguously inside `hay`. -/
def listHasSub (needle : List Char) : List Char → Bool
  | [] => listHasPre [] needle
  | h :: t => listHasPre (h :: t) needle || listHasSub needle t

/-- Model of Python `needle in hay` for strings. -/
def strHasSub (hay needle : String) : Bool := listHasSub needle.toList hay.toList

/-- Model of `any(keyword in text for keyword in kws)`. -/
def containsAny (text : String) (kws : List String) : Bool :=
  kws.any (fun k => strHasSub text k)

/-! ## TestDataManager.detect_feature_type -/

def loginKeywords : List String := ["login", "signin", "auth", "password", "credential"]
def registrationKeywords : List String := ["register", "signup", "create account", "new user"]
def productKeywords : List String := ["product", "catalog", "item", "inventory", "shop", "buy"]
def searchKeywords : List String := ["search", "find", "query", "filter"]
def contactKeywords : List String := ["contact", "feedback", "support", "message"]
def paymentKeywords : List String := ["payment", "checkout", "billing", "card"]
def profileKeywords : List String := ["profile", "account", "settings", "preferences"]

/-- Embedding of `TestDataManager.detect_feature_type` (jira_test_generator.py,
lines 54-73): keyword lookup over the lowercased `title + " " + description`
with a fixed priority order of categories. -/
def detect_feature_type (title description : String) : String :=
  let text := pyLower (title ++ " " ++ description)
  if containsAny text loginKeywords then "login"
  else if containsAny text registrationKeywords then "registration"
  else if containsAny text productKeywords then "product"
  else if containsAny text searchKeywords then "search"
  else if containsAny text contactKeywords then "contact"
  else if containsAny text paymentKeywords then "payment"
  else if containsAny text profileKeywords then "profile"
  else "generic"

example : detect_feature_type "Login page" "also a product shop" = "login" := by decide
example : detect_feature_type "weird" "nothing here" = "generic" := by decide
example : detect_feature_type "buy an item" "search it" = "product" := by decide

/-- C3: `detect_feature_type` returns one of exactly the eight categories,
with the stated keyword semantics and priority order. -/
theorem detect_feature_type_spec (title description : String) :
    (detect_feature_type title description ∈
      ["login", "registration", "product", "search", "contact", "payment", "profile", "generic"]) ∧
    (containsAny (pyLower (title ++ " " ++ description)) loginKeywords = true →
      detect_feature_type title description = "login") ∧
    ((∀ kws ∈ [loginKeywords, registrationKeywords, productKeywords, searchKeywords,
        contactKeywords, paymentKeywords, profileKeywords],
        containsAny (pyLower (title ++ " " ++ description)) kws = false) →
      detect_feature_type title description = "generic") := by
  simp only [detect_feature_type]
  refine ⟨?_, ?_, ?_⟩
  · split <;> (try split) <;> (try split) <;> (try split) <;> (try split) <;>
      (try split) <;> (try split) <;> simp
  · intro h
    simp [h]
  · intro h
    have h1 := h loginKeywords (by simp)
    have h2 := h registrationKeywords (by simp)
    have h3 := h productKeywords (by simp)
    have h4 := h searchKeywords (by simp)
    have h5 := h contactKeywords (by simp)
    have h6 := h paymentKeywords (by simp)
    have h7 := h profileKeywords (by simp)
    simp [h1, h2, h3, h4, h5, h6, h7]

/-- C3 witness: concrete instantiation of the keyword-priority theorem. -/
theorem detect_feature_type_spec_witness :
    detect_feature_type "Login and checkout" "card payment" = "login" :=
  (detect_feature_type_spec "Login and checkout" "card payment").2.1 (by decide)

/-! ## PlaywrightCodeGenerator.map_field_to_selector -/

/-- Model of Python `dict.get(key, default)` over an association list whose
insertion order mirrors the source dict literal. -/
def dictGet (m : List (String × String)) (k dflt : String) : String :=
  match m with
  | [] => dflt
  | (k2, v) :: rest => if k == k2 then v else dictGet rest k dflt

/-- The `field_mapping` dict literal of
`PlaywrightCodeGenerator.map_field_to_selector` (lines 291-306). -/
def field_mapping : List (String × String) :=
  [("email", "input[type=\x27email\x27], input[name*=\x27email\x27], input[id*=\x27email\x27], #email"),
   ("username", "input[name*=\x27username\x27], input[name*=\x27user\x27], input[id*=\x27username\x27], #username"),
   ("password", "input[type=\x27password\x27], input[name*=\x27password\x27], input[id*=\x27password\x27], #password"),
   ("first_name", "input[name*=\x27first\x27], input[name*=\x27fname\x27], input[id*=\x27first\x27], #firstName"),
   ("last_name", "input[name*=\x27last\x27], input[name*=\x27lname\x27], input[id*=\x27last\x27], #lastName"),
   ("phone", "input[type=\x27tel\x27], input[name*=\x27phone\x27], input[id*=\x27phone\x27], #phone"),
   ("address", "input[name*=\x27address\x27], textarea[name*=\x27address\x27], input[id*=\x27address\x27], #address"),
   ("company", "input[name*=\x27company\x27], input[id*=\x27company\x27], #company"),
   ("search_query", "input[type=\x27search\x27], input[name*=\x27search\x27], input[id*=\x27search\x27], #search"),
   ("message", "textarea[name*=\x27message\x27], textarea[name*=\x27comment\x27], textarea[id*=\x27message\x27], #message"),
   ("subject", "input[name*=\x27subject\x27], input[id*=\x27subject\x27], #subject"),
   ("card_number", "input[name*=\x27card\x27], input[name*=\x27number\x27], input[id*=\x27card\x27], #cardNumber"),
   ("cvv", "input[name*=\x27cvv\x27], input[name*=\x27cvc\x27], input[id*=\x27cvv\x27], #cvv"),
   ("quantity", "input[type=\x27number\x27], input[name*=\x27quantity\x27], input[id*=\x27quantity\x27], #quantity")]

/-- The fallback selector string built from the original (non-lowercased)
field name. -/
def fallback_selector (field_name : String) : String :=
  "input[name*=\x27" ++ field_name ++ "\x27], input[id*=\x27" ++ field_name ++
    "\x27], #" ++ field_name

/-- Embedding of `PlaywrightCodeGenerator.map_field_to_selector`
(lines 289-308): dict lookup on the lowercased field name with a fallback
built from the original field name. -/
def map_field_to_selector (field_name : String) : String :=
  dictGet field_mapping (pyLower field_name) (fallback_selector field_name)

example : map_field_to_selector "EMAIL" =
    "input[type=\x27email\x27], input[name*=\x27email\x27], input[id*=\x27email\x27], #email" := by decide
example : map_field_to_selector "zipcode" =
    "input[name*=\x27zipcode\x27], input[id*=\x27zipcode\x27], #zipcode" := by decide

/-- C7: `map_field_to_selector` returns a non-empty selector for every field
name; the fourteen table keys (matched case-insensitively) return the fixed
table entry, and every other name returns the fallback built from the
original, non-lowercased field name. -/
theorem map_field_to_selector_spec :
    (∀ fn : String, map_field_to_selector fn ≠ "") ∧
    (∀ fn key v, (key, v) ∈ field_mapping → pyLower fn = key →
      map_field_to_selector fn = v) ∧
    (∀ fn : String, pyLower fn ∉ field_mapping.map Prod.fst →
      map_field_to_selector fn = fallback_selector fn) := by
  have hfb : ∀ fn : String, fallback_selector fn ≠ "" := by
    intro fn h
    have h2 := congrArg String.data h
    simp [fallback_selector, String.data_append] at h2
  have hgen : ∀ (m : List (String × String)) (k d : String),
      (∀ p ∈ m, p.2 ≠ "") → d ≠ "" → dictGet m k d ≠ "" := by
    intro m
    induction m with
    | nil => intro k d _ hd; simpa [dictGet] using hd
    | cons p rest ih =>
      intro k d hm hd
      rw [dictGet]
      split
      · exact hm p (by simp)
      · exact ih k d (fun q hq => hm q (by simp [hq])) hd
  refine ⟨?_, ?_, ?_⟩
  · intro fn
    exact hgen field_mapping (pyLower fn) (fallback_selector fn) (by decide) (hfb fn)
  · intro fn key v hmem hlow
    simp only [field_mapping, List.mem_cons, List.not_mem_nil, or_false, Prod.mk.injEq] at hmem
    rcases hmem with ⟨hk, hv⟩ | ⟨hk, hv⟩ | ⟨hk, hv⟩ | ⟨hk, hv⟩ | ⟨hk, hv⟩ | ⟨hk, hv⟩ |
      ⟨hk, hv⟩ | ⟨hk, hv⟩ | ⟨hk, hv⟩ | ⟨hk, hv⟩ | ⟨hk, hv⟩ | ⟨hk, hv⟩ | ⟨hk, hv⟩ | ⟨hk, hv⟩ <;>
      subst hk <;> subst hv <;>
      simp [map_field_to_selector, dictGet, field_mapping, hlow]
  · intro fn h
    simp only [field_mapping, List.map_cons, List.map_nil, List.mem_cons, List.not_mem_nil,
      or_false, not_or] at h
    obtain ⟨h1, h2, h3, h4, h5, h6, h7, h8, h9, h10, h11, h12, h13, h14⟩ := h
    simp [map_field_to_selector, dictGet, field_mapping,
      h1, h2, h3, h4, h5, h6, h7, h8, h9, h10, h11, h12, h13, h14]

/-- C7 witness: concrete instantiations — a known key matched
case-insensitively, and an unknown key falling back. -/
theorem map_field_to_selector_spec_witness :
    map_field_to_selector "Email" =
      "input[type=\x27email\x27], input[name*=\x27email\x27], input[id*=\x27email\x27], #email" ∧
    map_field_to_selector "zipcode" = fallback_selector "zipcode" :=
  ⟨map_field_to_selector_spec.2.1 "Email" "email"
      "input[type=\x27email\x27], input[name*=\x27email\x27], input[id*=\x27email\x27], #email"
      (by decide) (by decide),
   map_field_to_selector_spec.2.2 "zipcode" (by decide)⟩

/-! ## Python values and PlaywrightCodeGenerator.optimize_actions -/

/-- Model of the Python values that flow through the test-data dicts:
strings, ints (the model RNG draws integers where the source draws
ints or rounded floats), and lists of strings. -/
inductive PyVal where
  | pstr (s : String)
  | pint (n : Int)
  | plist (l : List String)
deriving DecidableEq, Repr

/-- Model of Python `str()` on the values above. -/
def pyStr : PyVal → String
  | .pstr s => s
  | .pint n => toString n
  | .plist l => toString l

/-- An action dict as built by `PlaywrightCodeGenerator`: keys `type`,
`target`, `data` and (for fill actions) `field_name`. -/
structure ActionDict where
  type : String
  target : String
  data : Option PyVal
  field_name : Option String
deriving DecidableEq, Repr

/-- The second guard of the `optimize_actions` loop: a wait action whose
target equals the target of the last appended action when that action is
also a wait. -/
def isDupWait (a : ActionDict) (last : Option ActionDict) : Bool :=
  a.type == "wait" && (match last with
    | some la => la.type == "wait" && la.target == a.target
    | none => false)

/-- The loop of `PlaywrightCodeGenerator.optimize_actions` (lines 358-378):
`seen_fills` is the set of targets of fill actions appended so far and
`last` is the last appended action (`optimized[-1]`). -/
def optGo : List ActionDict → List String → Option ActionDict → List ActionDict
  | [], _, _ => []
  | a :: rest, seen_fills, last =>
    if a.type == "fill" && seen_fills.contains a.target then
      optGo rest seen_fills last
    else if isDupWait a last then
      optGo rest seen_fills last
    else
      a :: optGo rest (if a.type == "fill" then a.target :: seen_fills else seen_fills) (some a)

/-- Embedding of `PlaywrightCodeGenerator.optimize_actions`. -/
def optimize_actions (actions : List ActionDict) : List ActionDict :=
  optGo actions [] none

/-- The targets of the fill actions of a list, in order. -/
def fillTargets (l : List ActionDict) : List String :=
  (l.filter (fun a => a.type == "fill")).map (fun a => a.target)

/-- Adjacent-pair relation ruling out a wait immediately following a wait
with the same target. -/
def noDupWaitR (a b : ActionDict) : Prop :=
  ¬(a.type = "wait" ∧ b.type = "wait" ∧ a.target = b.target)

/-- `consOpt last l` prepends the last-appended action, when there is one,
so that chain invariants can be stated uniformly. -/
def consOpt : Option ActionDict → List ActionDict → List ActionDict
  | none, l => l
  | some a, l => a :: l

theorem optGo_sublist : ∀ (l : List ActionDict) (seen : List String) (last : Option ActionDict),
    (optGo l seen last).Sublist l := by
  intro l
  induction l with
  | nil => intro seen last; simp [optGo]
  | cons a rest ih =>
    intro seen last
    rw [optGo]
    split
    · exact (ih seen last).cons a
    · split
      · exact (ih seen last).cons a
      · exact (ih _ (some a)).cons₂ a

theorem optGo_fillTargets : ∀ (l : List ActionDict) (seen : List String) (last : Option ActionDict),
    (fillTargets (optGo l seen last)).Nodup ∧
    ∀ t ∈ fillTargets (optGo l seen last), t ∉ seen := by
  intro l
  induction l with
  | nil => intro seen last; simp [optGo, fillTargets]
  | cons a rest ih =>
    intro seen last
    rw [optGo]
    split
    · exact ih seen last
    · split
      · exact ih seen last
      · rename_i h1 h2
        by_cases hf : (a.type == "fill") = true
        · have ihh := ih (a.target :: seen) (some a)
          have hnotin : a.target ∉ seen := fun hmem => h1 (by simp [hf, hmem])
          have hft : fillTargets (a :: optGo rest (a.target :: seen) (some a)) =
              a.target :: fillTargets (optGo rest (a.target :: seen) (some a)) := by
            simp [fillTargets, List.filter_cons, hf]
          rw [if_pos hf, hft]
          constructor
          · refine List.Nodup.cons ?_ ihh.1
            intro hmem
            exact ihh.2 a.target hmem (by simp)
          · intro t ht
            rcases List.mem_cons.mp ht with rfl | ht2
            · exact hnotin
            · intro hseen
              exact ihh.2 t ht2 (by simp [hseen])
        · have ihh := ih seen (some a)
          have hft : fillTargets (a :: optGo rest seen (some a)) =
              fillTargets (optGo rest seen (some a)) := by
            simp [fillTargets, List.filter_cons, hf]
          rw [if_neg hf, hft]
          exact ihh

theorem optGo_chain : ∀ (l : List ActionDict) (seen : List String) (last : Option ActionDict),
    List.Chain' noDupWaitR (consOpt last (optGo l seen last)) := by
  intro l
  induction l with
  | nil => intro seen last; cases last <;> simp [optGo, consOpt]
  | cons a rest ih =>
    intro seen last
    rw [optGo]
    split
    · exact ih seen last
    · split
      · exact ih seen last
      · rename_i h1 h2
        have tail_chain := ih (if a.type == "fill" then a.target :: seen else seen) (some a)
        simp only [consOpt] at tail_chain
        cases last with
        | none => simpa [consOpt] using tail_chain
        | some la =>
          simp only [consOpt]
          refine List.chain'_cons'.mpr ⟨?_, tail_chain⟩
          intro b hb
          simp at hb
          subst hb
          intro hcon
          rcases hcon with ⟨hw1, hw2, ht⟩
          exact h2 (by simp [isDupWait, hw1, hw2, ht])

theorem optGo_count : ∀ (l : List ActionDict) (seen : List String) (last : Option ActionDict)
    (a : ActionDict), a.type ≠ "fill" → a.type ≠ "wait" →
    (optGo l seen last).count a = l.count a := by
  intro l
  induction l with
  | nil => intro seen last a _ _; rfl
  | cons b rest ih =>
    intro seen last a hf hw
    rw [optGo]
    split
    · rename_i h1
      have hb : b.type = "fill" := by
        have := (Bool.and_eq_true _ _).mp h1
        simpa using this.1
      have hba : (b == a) = false := by
        apply beq_false_of_ne
        intro hba
        exact hf (by rw [← hba, hb])
      rw [List.count_cons, hba, ih seen last a hf hw]
      simp
    · split
      · rename_i h1 h2
        have hb : b.type = "wait" := by
          simp [isDupWait] at h2
          exact h2.1
        have hba : (b == a) = false := by
          apply beq_false_of_ne
          intro hba
          exact hw (by rw [← hba, hb])
        rw [List.count_cons, hba, ih seen last a hf hw]
        simp
      · rw [List.count_cons, List.count_cons, ih _ (some b) a hf hw]

theorem optGo_noop : ∀ (l : List ActionDict) (seen : List String) (last : Option ActionDict),
    (∀ t ∈ fillTargets l, t ∉ seen) → (fillTargets l).Nodup →
    List.Chain' noDupWaitR (consOpt last l) → optGo l seen last = l := by
  intro l
  induction l with
  | nil => intro seen last _ _ _; rfl
  | cons a rest ih =>
    intro seen last hdisj hnd hch
    have hch2 : List.Chain' noDupWaitR (a :: rest) := by
      cases last with
      | none => simpa [consOpt] using hch
      | some la =>
        simp only [consOpt] at hch
        exact (List.chain'_cons.mp hch).2
    rw [optGo]
    have g1 : ¬(a.type == "fill" && seen.contains a.target) = true := by
      intro hg
      rcases (Bool.and_eq_true _ _).mp hg with ⟨hgf, hgc⟩
      have hmem : a.target ∈ fillTargets (a :: rest) := by
        simp [fillTargets, List.filter_cons, hgf]
      exact hdisj a.target hmem (by simpa using hgc)
    have g2 : ¬ isDupWait a last = true := by
      cases last with
      | none => simp [isDupWait]
      | some la =>
        intro hg
        simp [isDupWait] at hg
        have hR : noDupWaitR la a := by
          simp only [consOpt] at hch
          exact (List.chain'_cons.mp hch).1
        exact hR ⟨hg.2.1, hg.1, hg.2.2⟩
    rw [if_neg g1, if_neg g2]
    congr 1
    by_cases hf : (a.type == "fill") = true
    · have hfe : fillTargets (a :: rest) = a.target :: fillTargets rest := by
        simp [fillTargets, List.filter_cons, hf]
      rw [hfe] at hdisj hnd
      rw [if_pos hf]
      apply ih
      · intro t ht hmem
        rcases List.mem_cons.mp hmem with rfl | hseen
        · exact (List.nodup_cons.mp hnd).1 ht
        · exact hdisj t (by simp [ht]) hseen
      · exact (List.nodup_cons.mp hnd).2
      · simpa [consOpt] using hch2
    · have hfe : fillTargets (a :: rest) = fillTargets rest := by
        simp [fillTargets, List.filter_cons, hf]
      rw [hfe] at hdisj hnd
      rw [if_neg hf]
      apply ih
      · exact hdisj
      · exact hnd
      · simpa [consOpt] using hch2

/-- C9: `optimize_actions` returns an order-preserving subsequence of its
input in which fill targets are pairwise distinct and no wait immediately
follows a wait with the same target; actions that are neither fills nor
waits are all kept, the output is never longer than the input, and the
function is idempotent. -/
theorem optimize_actions_spec (actions : List ActionDict) :
    (optimize_actions actions).Sublist actions ∧
    (fillTargets (optimize_actions actions)).Nodup ∧
    List.Chain' noDupWaitR (optimize_actions actions) ∧
    (∀ a : ActionDict, a.type ≠ "fill" → a.type ≠ "wait" →
      (optimize_actions actions).count a = actions.count a) ∧
    (optimize_actions actions).length ≤ actions.length ∧
    optimize_actions (optimize_actions actions) = optimize_actions actions := by
  refine ⟨optGo_sublist actions [] none, (optGo_fillTargets actions [] none).1, ?_, ?_, ?_, ?_⟩
  · simpa [consOpt] using optGo_chain actions [] none
  · intro a hf hw
    exact optGo_count actions [] none a hf hw
  · exact (optGo_sublist actions [] none).length_le
  · apply optGo_noop
    · intro t _ hmem
      simp at hmem
    · exact (optGo_fillTargets actions [] none).1
    · simpa [consOpt] using optGo_chain actions [] none

/-- C9 witness: a concrete run — the duplicate fill and duplicate wait are
dropped, the click action is kept with its multiplicity. -/
theorem optimize_actions_spec_witness :
    (optimize_actions
        [⟨"fill", "t1", none, some "email"⟩, ⟨"fill", "t1", none, some "email"⟩,
         ⟨"click", "b", none, none⟩, ⟨"wait", "w", none, none⟩,
         ⟨"wait", "w", none, none⟩]).count ⟨"click", "b", none, none⟩ =
      ([⟨"fill", "t1", none, some "email"⟩, ⟨"fill", "t1", none, some "email"⟩,
        ⟨"click", "b", none, none⟩, ⟨"wait", "w", none, none⟩,
        ⟨"wait", "w", none, none⟩] : List ActionDict).count ⟨"click", "b", none, none⟩ :=
  (optimize_actions_spec _).2.2.2.1 ⟨"click", "b", none, none⟩ (by decide) (by decide)

/-! ## TestDataManager state: CSV rows and Faker data -/

/-- State of a `TestDataManager` (lines 46-52). `fakeAvail` models
`self.fake` being a `Faker` instance rather than `None`; `csv_data` is the
loaded DataFrame as a list of row dicts; `rng` is the counter state of the
external Faker / `random` pseudo-random source, threaded explicitly so the
external draws become deterministic functions of the state. -/
structure TestDataManager where
  fakeAvail : Bool
  csv_data : Option (List (List (String × PyVal)))
  current_row_index : Nat
  rng : Nat
deriving DecidableEq, Repr

/-- Embedding of `TestDataManager.get_csv_data_row` (lines 162-172):
`{}` when there is no CSV data, otherwise the row at
`current_row_index % len` (advancing the index cyclically) when no explicit
index is given, and the row at `row_index % len` (state untouched) when one
is. -/
def get_csv_data_row (st : TestDataManager) (row_index : Option Nat) :
    (List (String × PyVal)) × TestDataManager :=
  match st.csv_data with
  | none => ([], st)
  | some rows =>
    if h : rows.length = 0 then ([], st)
    else
      match row_index with
      | none =>
        (rows.get ⟨st.current_row_index % rows.length,
           Nat.mod_lt _ (Nat.pos_of_ne_zero h)⟩,
         { st with current_row_index := (st.current_row_index + 1) % rows.length })
      | some i =>
        (rows.get ⟨i % rows.length, Nat.mod_lt _ (Nat.pos_of_ne_zero h)⟩, st)

/-- Modelled from the external Faker library: a named string draw from the
PRNG counter. -/
def mstr (tag : String) (r : Nat) : PyVal := .pstr (tag ++ "_" ++ toString r)

/-- Modelled from the external `random.choice`: pick from a list using the
PRNG counter. -/
def mchoice (opts : List String) (r : Nat) : PyVal :=
  .pstr (opts.getD (r % opts.length) "")

/-- Modelled from the external `random.randint(lo, hi)` (and the rounded
`random.uniform` of the price field): an integer draw from the PRNG
counter. -/
def mint (lo hi r : Nat) : PyVal := .pint (Int.ofNat (lo + r % (hi + 1 - lo)))

/-- Embedding of `TestDataManager.generate_faker_data` (lines 84-160): `{}`
when Faker is unavailable, otherwise the ten `base_data` draws followed by
the feature-specific entries; each external draw advances the PRNG counter
by one. -/
def generate_faker_data (st : TestDataManager) (feature_type : String) :
    (List (String × PyVal)) × TestDataManager :=
  if st.fakeAvail = false then ([], st)
  else
    let r0 := st.rng
    let base : List (String × PyVal) :=
      [("email", mstr "email" r0),
       ("username", mstr "user" (r0 + 1)),
       ("first_name", mstr "first" (r0 + 2)),
       ("last_name", mstr "last" (r0 + 3)),
       ("phone", mstr "phone" (r0 + 4)),
       ("address", mstr "address" (r0 + 5)),
       ("company", mstr "company" (r0 + 6)),
       ("text_field", .pstr ("Test Input " ++ toString (r0 + 7))),
       ("number_field", mint 1 100 (r0 + 8)),
       ("date_field", mstr "date" (r0 + 9))]
    let r1 := r0 + 10
    if feature_type == "login" then
      (base ++ [("password", .pstr "TestPassword123!"),
                ("login_email", .pstr "test.user@example.com"),
                ("login_username", .pstr "testuser123")],
       { st with rng := r1 })
    else if feature_type == "registration" then
      (base ++ [("password", .pstr "TestPassword123!"),
                ("confirm_password", .pstr "TestPassword123!"),
                ("age", mint 18 65 r1),
                ("gender", mchoice ["Male", "Female", "Other"] (r1 + 1))],
       { st with rng := r1 + 2 })
    else if feature_type == "product" then
      (base ++ [("product_name", .pstr ("Test Product " ++ toString r1)),
                ("quantity", mint 1 5 (r1 + 1)),
                ("price", mint 10 1000 (r1 + 2)),
                ("category", mchoice ["Electronics", "Clothing", "Books", "Home"] (r1 + 3)),
                ("sku", .pstr ("SKU" ++ toString (r1 + 4)))],
       { st with rng := r1 + 5 })
    else if feature_type == "search" then
      (base ++ [("search_query", mstr "word" r1),
                ("search_terms", .plist ["word_" ++ toString (r1 + 1),
                  "word_" ++ toString (r1 + 2), "word_" ++ toString (r1 + 3)]),
                ("filter_category", mchoice ["All", "Recent", "Popular"] (r1 + 4)),
                ("sort_order", mchoice ["Newest", "Oldest", "Relevance"] (r1 + 5))],
       { st with rng := r1 + 6 })
    else if feature_type == "contact" then
      (base ++ [("subject", .pstr "Test Inquiry"),
                ("message", .pstr "This is a test message for automation testing."),
                ("inquiry_type", mchoice ["General", "Support", "Sales", "Technical"] r1)],
       { st with rng := r1 + 1 })
    else if feature_type == "payment" then
      (base ++ [("card_number", .pstr "4111111111111111"),
                ("expiry_month", mint 1 12 r1),
                ("expiry_year", mstr "year" (r1 + 1)),
                ("cvv", mint 100 999 (r1 + 2)),
                ("cardholder_name", mstr "name" (r1 + 3)),
                ("billing_address", mstr "address" (r1 + 4))],
       { st with rng := r1 + 5 })
    else if feature_type == "profile" then
      (base ++ [("bio", mstr "text" r1),
                ("website", mstr "url" (r1 + 1)),
                ("linkedin", .pstr ("linkedin.com/in/" ++ "user_" ++ toString (r1 + 2))),
                ("timezone", mchoice ["UTC", "EST", "PST", "GMT"] (r1 + 3))],
       { st with rng := r1 + 4 })
    else
      (base, { st with rng := r1 })

/-- The dict returned by `TestDataManager.get_test_data` (lines 174-189). -/
structure PyTestData where
  source : String
  data : List (String × PyVal)
  feature_type : Option String
  row_index : Option Int
deriving DecidableEq, Repr

/-- Embedding of `TestDataManager.get_test_data`: dispatch between the CSV
row source and the Faker source. -/
def get_test_data (st : TestDataManager) (feature_type : String)
    (data_mode : String) (row_index : Option Nat) :
    PyTestData × TestDataManager :=
  if data_mode == "csv" && !st.csv_data.isNone then
    let res := get_csv_data_row st row_index
    ({ source := "csv", data := res.1, feature_type := none,
       row_index := some (match row_index with
         | none => (res.2.current_row_index : Int) - 1
         | some i => (i : Int)) },
     res.2)
  else
    let res := generate_faker_data st feature_type
    ({ source := "faker", data := res.1, feature_type := some feature_type,
       row_index := none },
     res.2)

/-- C10: `get_csv_data_row` is total and keeps the row-index invariant:
empty or missing CSV data returns `{}` with the state unchanged; otherwise
the returned dict is a row of the data, the `None` path returns the row at
`current_row_index % len` and advances the index cyclically (so it stays
below the row count), and an explicit index returns the row at
`row_index % len` without touching the state. -/
theorem get_csv_data_row_spec :
    (∀ (st : TestDataManager) (ri : Option Nat), st.csv_data = none →
      get_csv_data_row st ri = ([], st)) ∧
    (∀ (st : TestDataManager) (rows : List (List (String × PyVal))) (ri : Option Nat),
      st.csv_data = some rows → rows.length = 0 → get_csv_data_row st ri = ([], st)) ∧
    (∀ (st : TestDataManager) (rows : List (List (String × PyVal))) (ri : Option Nat),
      st.csv_data = some rows → rows.length ≠ 0 →
      (get_csv_data_row st ri).1 ∈ rows) ∧
    (∀ (st : TestDataManager) (rows : List (List (String × PyVal))),
      st.csv_data = some rows → ∀ hl : rows.length ≠ 0,
      (get_csv_data_row st none).1 =
        rows.get ⟨st.current_row_index % rows.length, Nat.mod_lt _ (Nat.pos_of_ne_zero hl)⟩ ∧
      (get_csv_data_row st none).2 =
        { st with current_row_index := (st.current_row_index + 1) % rows.length } ∧
      (get_csv_data_row st none).2.current_row_index < rows.length) ∧
    (∀ (st : TestDataManager) (rows : List (List (String × PyVal))) (i : Nat),
      st.csv_data = some rows → ∀ hl : rows.length ≠ 0,
      get_csv_data_row st (some i) =
        (rows.get ⟨i % rows.length, Nat.mod_lt _ (Nat.pos_of_ne_zero hl)⟩, st)) := by
  refine ⟨?_, ?_, ?_, ?_, ?_⟩
  · intro st ri h
    obtain ⟨fa, cd, cri, rng⟩ := st
    simp only at h
    subst h
    rfl
  · intro st rows ri h hl
    obtain ⟨fa, cd, cri, rng⟩ := st
    simp only at h
    subst h
    simp [get_csv_data_row, hl]
  · intro st rows ri h hl
    obtain ⟨fa, cd, cri, rng⟩ := st
    simp only at h
    subst h
    cases ri <;> simp [get_csv_data_row, hl]
  · intro st rows h hl
    obtain ⟨fa, cd, cri, rng⟩ := st
    simp only at h
    subst h
    refine ⟨by simp [get_csv_data_row, hl], by simp [get_csv_data_row, hl], ?_⟩
    simp only [get_csv_data_row, hl]
    simp [Nat.mod_lt _ (Nat.pos_of_ne_zero hl)]
  · intro st rows i h hl
    obtain ⟨fa, cd, cri, rng⟩ := st
    simp only at h
    subst h
    simp [get_csv_data_row, hl]

/-- C10 witness: a two-row manager — the cyclic advance and the explicit
index path at concrete inputs. -/
theorem get_csv_data_row_spec_witness :
    (get_csv_data_row ⟨true, some [[("email", .pstr "a")], [("email", .pstr "b")]], 1, 0⟩ none).2 =
      { fakeAvail := true, csv_data := some [[("email", .pstr "a")], [("email", .pstr "b")]],
        current_row_index := 0, rng := 0 } ∧
    get_csv_data_row ⟨true, some [[("email", .pstr "a")], [("email", .pstr "b")]], 1, 0⟩ (some 3) =
      ([("email", .pstr "b")],
       ⟨true, some [[("email", .pstr "a")], [("email", .pstr "b")]], 1, 0⟩) :=
  ⟨(get_csv_data_row_spec.2.2.2.1 ⟨true, some [[("email", .pstr "a")], [("email", .pstr "b")]], 1, 0⟩
      [[("email", .pstr "a")], [("email", .pstr "b")]] rfl (by decide)).2.1,
   get_csv_data_row_spec.2.2.2.2 ⟨true, some [[("email", .pstr "a")], [("email", .pstr "b")]], 1, 0⟩
      [[("email", .pstr "a")], [("email", .pstr "b")]] 3 rfl (by decide)⟩

theorem get_csv_data_row_snd_csv (st : TestDataManager) (ri : Option Nat) :
    (get_csv_data_row st ri).2.csv_data = st.csv_data := by
  obtain ⟨fa, cd, cri, rng⟩ := st
  cases cd with
  | none => rfl
  | some rows =>
    by_cases h : rows.length = 0
    · simp [get_csv_data_row, h]
    · cases ri <;> simp [get_csv_data_row, h]

theorem generate_faker_data_snd (st : TestDataManager) (ft : String) :
    ∃ r, (generate_faker_data st ft).2 = { st with rng := r } := by
  obtain ⟨fa, cd, cri, rng⟩ := st
  unfold generate_faker_data
  split
  · exact ⟨rng, rfl⟩
  · split
    · exact ⟨_, rfl⟩
    · split
      · exact ⟨_, rfl⟩
      · split
        · exact ⟨_, rfl⟩
        · split
          · exact ⟨_, rfl⟩
          · split
            · exact ⟨_, rfl⟩
            · split
              · exact ⟨_, rfl⟩
              · split
                · exact ⟨_, rfl⟩
                · exact ⟨_, rfl⟩

/-- C8 counterexample: the test-data units are not pure functions of their
arguments and manager state. With a two-row CSV, `get_csv_data_row(None)`
changes `current_row_index`, two successive calls in equal initial state
return different rows, `generate_faker_data` advances the PRNG state, and
`get_test_data` in csv mode with `row_index=None` also mutates the
manager. -/
theorem test_data_purity_refuted :
    (get_csv_data_row ⟨true, some [[("k", .pstr "a")], [("k", .pstr "b")]], 0, 0⟩ none).2 ≠
      ⟨true, some [[("k", .pstr "a")], [("k", .pstr "b")]], 0, 0⟩ ∧
    (get_csv_data_row ⟨true, some [[("k", .pstr "a")], [("k", .pstr "b")]], 0, 0⟩ none).1 ≠
      (get_csv_data_row
        ((get_csv_data_row ⟨true, some [[("k", .pstr "a")], [("k", .pstr "b")]], 0, 0⟩ none).2)
        none).1 ∧
    (generate_faker_data ⟨true, none, 0, 0⟩ "generic").2 ≠ ⟨true, none, 0, 0⟩ ∧
    (get_test_data ⟨true, some [[("k", .pstr "a")], [("k", .pstr "b")]], 0, 0⟩
        "generic" "csv" none).2 ≠
      ⟨true, some [[("k", .pstr "a")], [("k", .pstr "b")]], 0, 0⟩ := by
  refine ⟨by decide, by decide, by decide, by decide⟩

/-- C8 (amended): the test-data units are deterministic state
transformers, pure exactly on the explicit-row paths: `get_csv_data_row`
and `get_test_data` (csv mode) with an explicit `row_index` leave the
manager unchanged, `generate_faker_data` changes at most the PRNG counter,
and no unit ever changes the loaded CSV data. -/
theorem test_data_purity_amended :
    (∀ (st : TestDataManager) (i : Nat), (get_csv_data_row st (some i)).2 = st) ∧
    (∀ (st : TestDataManager) (ft : String) (i : Nat), st.csv_data ≠ none →
      (get_test_data st ft "csv" (some i)).2 = st) ∧
    (∀ (st : TestDataManager) (ft : String), ∃ r,
      (generate_faker_data st ft).2 = { st with rng := r }) ∧
    (∀ (st : TestDataManager) (ft dm : String) (ri : Option Nat),
      (get_test_data st ft dm ri).2.csv_data = st.csv_data) := by
  have hexp : ∀ (st : TestDataManager) (i : Nat), (get_csv_data_row st (some i)).2 = st := by
    intro st i
    obtain ⟨fa, cd, cri, rng⟩ := st
    cases cd with
    | none => rfl
    | some rows =>
      by_cases h : rows.length = 0
      · simp [get_csv_data_row, h]
      · simp [get_csv_data_row, h]
  refine ⟨hexp, ?_, generate_faker_data_snd, ?_⟩
  · intro st ft i hcd
    have hmode : ("csv" == "csv" && !st.csv_data.isNone) = true := by
      cases h : st.csv_data with
      | none => exact absurd h hcd
      | some rows => simp [h]
    simp only [get_test_data, hmode, if_pos]
    exact hexp st i
  · intro st ft dm ri
    simp only [get_test_data]
    split
    · exact get_csv_data_row_snd_csv st ri
    · obtain ⟨r, hr⟩ := generate_faker_data_snd st ft
      rw [hr]

/-- C8 amended-claim witness: concrete instantiation of the explicit-row
purity. -/
theorem test_data_purity_amended_witness :
    (get_test_data ⟨true, some [[("k", .pstr "a")], [("k", .pstr "b")]], 0, 7⟩
        "generic" "csv" (some 1)).2 =
      ⟨true, some [[("k", .pstr "a")], [("k", .pstr "b")]], 0, 7⟩ :=
  test_data_purity_amended.2.1 ⟨true, some [[("k", .pstr "a")], [("k", .pstr "b")]], 0, 7⟩
    "generic" 1 (by decide)

/-! ## save_test_case and the file-system model -/

/-- A flat file system: newest write first. -/
structure FileSystem where
  files : List (String × String)
deriving DecidableEq, Repr

/-- Look a file up by name (first, i.e. most recent, write wins). -/
def assocFind (files : List (String × String)) (name : String) : Option String :=
  match files with
  | [] => none
  | (n, c) :: rest => if name == n then some c else assocFind rest name

def fsWrite (fs : FileSystem) (name content : String) : FileSystem :=
  ⟨(name, content) :: fs.files⟩

def fsRead (fs : FileSystem) (name : String) : Option String :=
  assocFind fs.files name

/-- Embedding of `save_test_case` (lines 901-909): write the text to
`TestCase_<issue_id>.txt` and return `(filename, None)`, or catch the I/O
exception (modelled by `ioError`) and return `(None, error message)`. -/
def save_test_case (test_case issue_id : String) (fs : FileSystem)
    (ioError : Option String) : (Option String × Option String) × FileSystem :=
  let filename := "TestCase_" ++ issue_id ++ ".txt"
  match ioError with
  | some e => ((none, some ("Error saving file: " ++ e)), fs)
  | none => ((some filename, none), fsWrite fs filename test_case)

/-- C6: on success `save_test_case` returns `(TestCase_<id>.txt, None)` and
reading the file back yields the text verbatim; on an I/O exception it
returns `(None, error message)` without touching the file system. -/
theorem save_test_case_spec :
    (∀ (tc issue_id : String) (fs : FileSystem),
      (save_test_case tc issue_id fs none).1 =
        (some ("TestCase_" ++ issue_id ++ ".txt"), none) ∧
      fsRead (save_test_case tc issue_id fs none).2
        ("TestCase_" ++ issue_id ++ ".txt") = some tc) ∧
    (∀ (tc issue_id : String) (fs : FileSystem) (e : String),
      (save_test_case tc issue_id fs (some e)).1 =
        (none, some ("Error saving file: " ++ e)) ∧
      (save_test_case tc issue_id fs (some e)).2 = fs) := by
  refine ⟨?_, ?_⟩
  · intro tc issue_id fs
    refine ⟨rfl, ?_⟩
    simp [save_test_case, fsWrite, fsRead, assocFind]
  · intro tc issue_id fs e
    exact ⟨rfl, rfl⟩

/-! ## generate_feature_specific_steps and generate_test_case -/

/-- Embedding of `generate_feature_specific_steps` (lines 816-899): the
canned numbered steps for each feature type. -/
def generate_feature_specific_steps (feature_type summary : String)
    (test_data : Option PyTestData) : String :=
  if feature_type == "login" then
    "  1. Navigate to the login page\n  2. Enter valid email/username from test data\n  3. Enter valid password from test data\n  4. Click the login button\n  5. Verify successful login and redirection\n  6. Test with invalid credentials (negative testing)\n  7. Verify appropriate error messages are displayed"
  else if feature_type == "registration" then
    "  1. Navigate to the registration page\n  2. Fill in first name from test data\n  3. Fill in last name from test data\n  4. Enter email address from test data\n  5. Enter username from test data\n  6. Set password and confirm password\n  7. Fill additional required fields\n  8. Submit the registration form\n  9. Verify successful registration confirmation\n  10. Test with invalid data (negative testing)"
  else if feature_type == "product" then
    "  1. Navigate to the product catalog/search page\n  2. Search for products using test data\n  3. Filter by category from test data\n  4. Select a product to view details\n  5. Verify product information matches expected data\n  6. Add product to cart with specified quantity\n  7. Verify cart updates correctly\n  8. Test product sorting and filtering options"
  else if feature_type == "search" then
    "  1. Navigate to the search functionality\n  2. Enter search query from test data\n  3. Execute the search\n  4. Verify search results are displayed\n  5. Test different search terms from test data\n  6. Apply filters if available\n  7. Test search with empty/invalid queries\n  8. Verify search result accuracy and relevance"
  else if feature_type == "contact" then
    "  1. Navigate to the contact/feedback form\n  2. Fill in name from test data\n  3. Enter email address from test data\n  4. Fill in phone number from test data\n  5. Enter subject from test data\n  6. Fill in message from test data\n  7. Submit the form\n  8. Verify submission confirmation\n  9. Test form validation with invalid data"
  else if feature_type == "payment" then
    "  1. Navigate to the payment/checkout page\n  2. Enter billing information from test data\n  3. Fill in credit card details from test data\n  4. Enter cardholder name from test data\n  5. Set expiry date and CVV from test data\n  6. Enter billing address from test data\n  7. Submit payment information\n  8. Verify payment processing\n  9. Test with invalid payment data"
  else if feature_type == "profile" then
    "  1. Navigate to the user profile page\n  2. Update profile information using test data\n  3. Fill in bio/description from test data\n  4. Update contact information\n  5. Set preferences and settings\n  6. Save profile changes\n  7. Verify changes are persisted\n  8. Test profile picture upload if applicable"
  else
    "  1. Navigate to the relevant page/section\n  2. Identify the main functionality to test\n  3. Use test data to fill any required forms/fields\n  4. Perform the primary action (submit, save, etc.)\n  5. Verify the expected behavior occurs\n  6. Test edge cases and error conditions\n  7. Validate data persistence and display"

/-- One line of the `Test Data` section per dict entry, mirroring the
`isinstance` dispatch of lines 783-787. -/
def renderDataEntries : List (String × PyVal) → String
  | [] => ""
  | (k, v) :: rest =>
    (match v with
     | .pstr s => "  - " ++ k ++ ": " ++ s ++ "\n"
     | .pint n => "  - " ++ k ++ ": " ++ toString n ++ "\n"
     | .plist l => "  - " ++ k ++ ": " ++ String.intercalate ", " l ++ "\n") ++
    renderDataEntries rest

/-- `test_data.get('feature_type', 'generic') if test_data else 'generic'`. -/
def tdFeatureType (test_data : Option PyTestData) : String :=
  match test_data with
  | some td => td.feature_type.getD "generic"
  | none => "generic"

/-- The `test_data_section` string of `generate_test_case` (lines 776-787). -/
def testDataSection (test_data : Option PyTestData) : String :=
  match test_data with
  | none => ""
  | some td =>
    if td.data.isEmpty then ""
    else "\nTest Data (Source: " ++ pyUpper td.source ++ "):\n" ++ renderDataEntries td.data

/-- Embedding of `generate_test_case` (lines 772-814): the manual-test-case
template filled with the issue id, summary, truncated description, the
test-data section and the feature-specific steps. -/
def generate_test_case (issue_id summary description : String)
    (test_data : Option PyTestData) : String :=
  "=== Manual Test Case ===" ++ "\n" ++
  ("Test Case ID: TC_" ++ issue_id) ++ "\n" ++
  ("Title: " ++ summary) ++
  "\nObjective: Verify that the system meets the requirement \"" ++ summary ++
  "\".\nPreconditions: User should have access to the application.\n" ++
  testDataSection test_data ++
  "\nTest Steps:\n" ++
  generate_feature_specific_steps (tdFeatureType test_data) summary test_data ++
  "\n\nExpected Result:\n  The system should behave as described in: " ++
  (pyTake description 300 ++
    (if description.length > 300 then "..." else "")) ++
  "\n\nPriority: Medium\nTest Type: Manual\nFeature Type: " ++
  tdFeatureType test_data ++
  "\nStatus: Draft\n\nNotes:\n- This test case was auto-generated from JIRA issue " ++
  issue_id ++
  "\n- Test data is " ++
  (if test_data.isSome then "included" else "not provided") ++
  " for automation\n- Review and modify as needed before execution\n"

/-- `StrContains hay mid`: `mid` occurs contiguously in `hay`. -/
def StrContains (hay mid : String) : Prop := ∃ p s, hay = p ++ mid ++ s

theorem scSelf (m : String) : StrContains m m := ⟨"", "", by simp⟩

theorem scApL {a m : String} (b : String) (h : StrContains a m) : StrContains (a ++ b) m := by
  obtain ⟨p, s, hp⟩ := h
  exact ⟨p, s ++ b, by rw [hp]; simp [String.append_assoc]⟩

theorem scApR {b m : String} (a : String) (h : StrContains b m) : StrContains (a ++ b) m := by
  obtain ⟨p, s, hp⟩ := h
  exact ⟨a ++ p, s, by rw [hp]; simp [String.append_assoc]⟩

/-- `StrStarts hay pre`: `hay` begins with `pre`. -/
def StrStarts (hay pre : String) : Prop := ∃ r, hay = pre ++ r

theorem ssSelf (m : String) : StrStarts m m := ⟨"", by simp⟩

theorem ssApL {a pre : String} (b : String) (h : StrStarts a pre) : StrStarts (a ++ b) pre := by
  obtain ⟨r, hr⟩ := h
  exact ⟨r ++ b, by rw [hr]; simp [String.append_assoc]⟩

/-- C4: the generated manual test case starts with the
`=== Manual Test Case ===` header, carries `Test Case ID: TC_<issue_id>`
and the summary as Title, embeds the canned steps selected by the feature
type (the generic steps when no test data is given), and quotes the first
300 characters of the description, appending `...` exactly when the
description is strictly longer than 300 characters. -/
theorem generate_test_case_spec (issue_id summary description : String)
    (test_data : Option PyTestData) :
    StrStarts (generate_test_case issue_id summary description test_data)
      "=== Manual Test Case ===" ∧
    StrContains (generate_test_case issue_id summary description test_data)
      ("Test Case ID: TC_" ++ issue_id) ∧
    StrContains (generate_test_case issue_id summary description test_data)
      ("Title: " ++ summary) ∧
    StrContains (generate_test_case issue_id summary description test_data)
      (generate_feature_specific_steps (tdFeatureType test_data) summary test_data) ∧
    (test_data = none →
      StrContains (generate_test_case issue_id summary description test_data)
        (generate_feature_specific_steps "generic" summary none)) ∧
    StrContains (generate_test_case issue_id summary description test_data)
      (pyTake description 300 ++
        (if description.length > 300 then "..." else "")) := by
  refine ⟨?_, ?_, ?_, ?_, ?_, ?_⟩
  · rw [generate_test_case]
    exact ssApL _ (ssApL _ (ssApL _ (ssApL _ (ssApL _ (ssApL _ (ssApL _ (ssApL _ (ssApL _ (ssApL _ (ssApL _ (ssApL _ (ssApL _ (ssApL _ (ssApL _ (ssApL _ (ssApL _ (ssApL _ (ssApL _ (ssSelf _)))))))))))))))))))
  · rw [generate_test_case]
    exact scApL _ (scApL _ (scApL _ (scApL _ (scApL _ (scApL _ (scApL _ (scApL _ (scApL _ (scApL _ (scApL _ (scApL _ (scApL _ (scApL _ (scApL _ (scApL _ (scApL _ (scApR _ (scSelf _))))))))))))))))))
  · rw [generate_test_case]
    exact scApL _ (scApL _ (scApL _ (scApL _ (scApL _ (scApL _ (scApL _ (scApL _ (scApL _ (scApL _ (scApL _ (scApL _ (scApL _ (scApL _ (scApL _ (scApR _ (scSelf _))))))))))))))))
  · rw [generate_test_case]
    exact scApL _ (scApL _ (scApL _ (scApL _ (scApL _ (scApL _ (scApL _ (scApL _ (scApL _ (scApR _ (scSelf _))))))))))
  · intro h
    subst h
    rw [generate_test_case]
    exact scApL _ (scApL _ (scApL _ (scApL _ (scApL _ (scApL _ (scApL _ (scApL _ (scApL _ (scApR _ (scSelf _))))))))))
  · rw [generate_test_case]
    exact scApL _ (scApL _ (scApL _ (scApL _ (scApL _ (scApL _ (scApL _ (scApR _ (scSelf _))))))))

/-- C4 witness: the generic steps appear when no test data is given. -/
theorem generate_test_case_spec_witness :
    StrContains (generate_test_case "PROJ-1" "Sum" "Desc" none)
      (generate_feature_specific_steps "generic" "Sum" none) :=
  (generate_test_case_spec "PROJ-1" "Sum" "Desc" none).2.2.2.2.1 rfl

/-! ## JIRA REST wrappers -/

/-- A JSON value, as returned by `response.json()`. -/
inductive JsonV where
  | jnull
  | jstr (s : String)
  | jnum (n : Int)
  | jbool (b : Bool)
  | jarr (l : List JsonV)
  | jobj (fields : List (String × JsonV))
deriving Repr

/-- Lookup in a JSON object (first binding wins, as in a Python dict). -/
def jLookup : List (String × JsonV) → String → Option JsonV
  | [], _ => none
  | (k2, v) :: rest, k => if k == k2 then some v else jLookup rest k

/-- Python `obj[k]`: `KeyError` when the key is missing, `TypeError` when
the value is not a dict; both surface as exceptions. -/
def jGet (j : JsonV) (k : String) : Except String JsonV :=
  match j with
  | .jobj fields =>
    match jLookup fields k with
    | some v => .ok v
    | none => .error ("KeyError: " ++ k)
  | _ => .error "TypeError: not a dict"

/-- Python `obj.get(k)`: `None` when missing, exception when `obj` is not a
dict. -/
def jGetOpt (j : JsonV) (k : String) : Except String (Option JsonV) :=
  match j with
  | .jobj fields => .ok (jLookup fields k)
  | _ => .error "AttributeError: get"

/-- Python `obj.get(k, d)`. -/
def jGetD (j : JsonV) (k : String) (d : JsonV) : Except String JsonV :=
  match j with
  | .jobj fields => .ok ((jLookup fields k).getD d)
  | _ => .error "AttributeError: get"

/-- Python truthiness of a JSON value. -/
def jTruthy : JsonV → Bool
  | .jnull => false
  | .jstr s => !s.isEmpty
  | .jnum n => n != 0
  | .jbool b => b
  | .jarr l => !l.isEmpty
  | .jobj f => !f.isEmpty

/-- The observable outcome of one HTTP request: `requests` either raised,
or delivered a response with a status code, a text body, and a
`response.json()` result that may itself raise. -/
structure HttpResponse where
  status : Nat
  text : String
  jsonBody : Except String JsonV

inductive HttpOutcome where
  | resp (r : HttpResponse)
  | exc (msg : String)

/-- `[it["name"] for it in issue_types]`. -/
def extractNames : List JsonV → Except String (List JsonV)
  | [] => .ok []
  | it :: rest => do
    let n ← jGet it "name"
    let ns ← extractNames rest
    pure (n :: ns)

/-- The body-parsing part of `get_issue_types` (lines 677-679), inside the
`try`. -/
def parseIssueTypes (body : Except String JsonV) : Except String (List JsonV) := do
  let data ← body
  let its ← jGetD data "issueTypes" (.jarr [])
  let l ← (match its with
    | .jarr l => Except.ok l
    | _ => Except.error "TypeError: not iterable")
  extractNames l

/-- Embedding of `get_issue_types` (lines 668-683): one request, errors
returned in the second component, never raised. -/
def get_issue_types (base_url username api_key project_key : String)
    (o : HttpOutcome) : List JsonV × Option String :=
  match o with
  | .exc e => ([], some ("Exception occurred: " ++ e))
  | .resp r =>
    if r.status = 200 then
      match parseIssueTypes r.jsonBody with
      | .ok names => (names, none)
      | .error e => ([], some ("Exception occurred: " ++ e))
    else ([], some ("Error fetching issue types: " ++ toString r.status))

/-- The issue payload of `create_jira_issue` (lines 695-720), in Atlassian
Document Format. -/
def createPayload (project_key feature_title feature_description module
    complexity issue_type : String) : JsonV :=
  .jobj [("fields", .jobj
    [("project", .jobj [("key", .jstr project_key)]),
     ("summary", .jstr feature_title),
     ("description", .jobj
       [("type", .jstr "doc"),
        ("version", .jnum 1),
        ("content", .jarr
          [.jobj [("type", .jstr "paragraph"),
                  ("content", .jarr [.jobj [("type", .jstr "text"),
                    ("text", .jstr ("Feature Description: " ++ feature_description))]])],
           .jobj [("type", .jstr "paragraph"),
                  ("content", .jarr [.jobj [("type", .jstr "text"),
                    ("text", .jstr ("Module: " ++ module))]])],
           .jobj [("type", .jstr "paragraph"),
                  ("content", .jarr [.jobj [("type", .jstr "text"),
                    ("text", .jstr ("Complexity: " ++ complexity))]])]])]),
     ("issuetype", .jobj [("name", .jstr issue_type)]),
     ("labels",
       if strHasSub (pyLower feature_title) "auth" ||
          strHasSub (pyLower feature_title) "login" then
         .jarr [.jstr "feature", .jstr "authentication"]
       else .jarr [.jstr "feature"])])]

/-- The body-parsing part of `create_jira_issue` (lines 725-726), inside
the `try`: `data["key"]`. -/
def createParseKey (body : Except String JsonV) : Except String JsonV := do
  let data ← body
  jGet data "key"

/-- Embedding of `create_jira_issue` (lines 685-732). -/
def create_jira_issue (base_url username api_key project_key feature_title
    feature_description module complexity issue_type : String)
    (o : HttpOutcome) : Option JsonV × Option JsonV × Option String :=
  let payload := createPayload project_key feature_title feature_description
    module complexity issue_type
  match o with
  | .exc e => (none, none, some ("Exception occurred: " ++ e))
  | .resp r =>
    if r.status = 201 then
      match createParseKey r.jsonBody with
      | .ok k => (some k, some payload, none)
      | .error e => (none, none, some ("Exception occurred: " ++ e))
    else (none, none, some ("Error creating issue: " ++ toString r.status ++
      " - " ++ r.text))

/-- The inner text-block loop of the ADF description walk
(lines 755-757). -/
def textParts : List JsonV → Except String (List String)
  | [] => .ok []
  | tb :: rest => do
    let tOpt ← jGetOpt tb "text"
    let rest2 ← textParts rest
    match tOpt with
    | some tv =>
      if jTruthy tv then
        match tv with
        | .jstr s => pure (s :: rest2)
        | _ => Except.error "TypeError: sequence item is not str"
      else pure rest2
    | none => pure rest2

/-- The outer content-block loop of the ADF description walk
(lines 753-757). -/
def adfWalk : List JsonV → Except String (List String)
  | [] => .ok []
  | cb :: rest => do
    let inner ← jGetOpt cb "content"
    let parts1 ← (match inner with
      | some iv =>
        if jTruthy iv then
          match iv with
          | .jarr tbs => textParts tbs
          | _ => Except.error "TypeError: not iterable"
        else pure []
      | none => pure [])
    let rest2 ← adfWalk rest
    pure (parts1 ++ rest2)

/-- The body-parsing part of `fetch_jira_issue` (lines 743-765), inside the
`try`: extract the summary and the description (ADF dict, plain value, or
the `No description available` fallback). -/
def fetchParse (body : Except String JsonV) : Except String (JsonV × JsonV) := do
  let data ← body
  let fields ← jGet data "fields"
  let summary ← jGet fields "summary"
  let dOpt ← jGetOpt fields "description"
  let description ← (match dOpt with
    | some dv =>
      if jTruthy dv then
        match dv with
        | .jobj _ => do
          let content ← jGetD dv "content" (.jarr [])
          let cbs ← (match content with
            | .jarr l => Except.ok l
            | _ => Except.error "TypeError: not iterable")
          let parts ← adfWalk cbs
          pure (JsonV.jstr (if parts.isEmpty then "No description available"
            else String.intercalate " " parts))
        | _ => pure dv
      else pure (JsonV.jstr "No description available")
    | none => pure (JsonV.jstr "No description available"))
  pure (summary, description)

/-- Embedding of `fetch_jira_issue` (lines 734-770). -/
def fetch_jira_issue (base_url username api_key issue_id : String)
    (o : HttpOutcome) : Option JsonV × Option JsonV × Option String :=
  match o with
  | .exc e => (none, none, some ("Exception occurred: " ++ e))
  | .resp r =>
    if r.status = 200 then
      match fetchParse r.jsonBody with
      | .ok sd => (some sd.1, some sd.2, none)
      | .error e => (none, none, some ("Exception occurred: " ++ e))
    else (none, none, some ("Error fetching issue: " ++ toString r.status ++
      " - " ++ r.text))

/-- C5 counterexample: a 200 response whose body fails to parse as JSON
still yields the error triple, so "returns (summary, description, None)
exactly when the response status is 200" fails in the right-to-left
direction. -/
theorem fetch_jira_issue_refuted :
    fetch_jira_issue "https://jira.example.com" "user" "apikey" "PROJ-1"
        (.resp ⟨200, "", .error "Expecting value: line 1 column 1 (char 0)"⟩) =
      (none, none,
        some "Exception occurred: Expecting value: line 1 column 1 (char 0)") ∧
    (HttpResponse.mk 200 "" (.error "Expecting value: line 1 column 1 (char 0)")).status
      = 200 :=
  ⟨rfl, rfl⟩

/-- C5 (amended): the wrappers are total (never raise) and report errors
through their return values: an exception from the single request, a
non-200/201 status, or a body that fails to parse all yield the error
shape; the success triple comes back exactly when the status matches and
the body parses. -/
theorem jira_wrappers_spec :
    (∀ b u k p e, get_issue_types b u k p (.exc e) =
      ([], some ("Exception occurred: " ++ e))) ∧
    (∀ b u k p (r : HttpResponse), r.status ≠ 200 →
      get_issue_types b u k p (.resp r) =
        ([], some ("Error fetching issue types: " ++ toString r.status))) ∧
    (∀ b u k p (r : HttpResponse) names, r.status = 200 →
      parseIssueTypes r.jsonBody = .ok names →
      get_issue_types b u k p (.resp r) = (names, none)) ∧
    (∀ b u k p (r : HttpResponse) e, r.status = 200 →
      parseIssueTypes r.jsonBody = .error e →
      get_issue_types b u k p (.resp r) =
        ([], some ("Exception occurred: " ++ e))) ∧
    (∀ b u k i e, fetch_jira_issue b u k i (.exc e) =
      (none, none, some ("Exception occurred: " ++ e))) ∧
    (∀ b u k i (r : HttpResponse),
      (fetch_jira_issue b u k i (.resp r)).2.2 = none ↔
        (r.status = 200 ∧ ∃ sd, fetchParse r.jsonBody = .ok sd)) ∧
    (∀ b u k i (r : HttpResponse) sd, r.status = 200 →
      fetchParse r.jsonBody = .ok sd →
      fetch_jira_issue b u k i (.resp r) = (some sd.1, some sd.2, none)) ∧
    (∀ b u k p ft fd m c it e, create_jira_issue b u k p ft fd m c it (.exc e) =
      (none, none, some ("Exception occurred: " ++ e))) ∧
    (∀ b u k p ft fd m c it (r : HttpResponse),
      (create_jira_issue b u k p ft fd m c it (.resp r)).2.2 = none ↔
        (r.status = 201 ∧ ∃ kk, createParseKey r.jsonBody = .ok kk)) ∧
    (∀ b u k p ft fd m c it (r : HttpResponse) kk, r.status = 201 →
      createParseKey r.jsonBody = .ok kk →
      create_jira_issue b u k p ft fd m c it (.resp r) =
        (some kk, some (createPayload p ft fd m c it), none)) := by
  refine ⟨?_, ?_, ?_, ?_, ?_, ?_, ?_, ?_, ?_, ?_⟩
  · intro b u k p e; rfl
  · intro b u k p r hs
    simp only [get_issue_types, if_neg hs]
  · intro b u k p r names hs hp
    simp only [get_issue_types, if_pos hs, hp]
  · intro b u k p r e hs hp
    simp only [get_issue_types, if_pos hs, hp]
  · intro b u k i e; rfl
  · intro b u k i r
    constructor
    · intro h
      by_cases hs : r.status = 200
      · simp only [fetch_jira_issue, if_pos hs] at h
        cases hp : fetchParse r.jsonBody with
        | ok sd => exact ⟨hs, sd, rfl⟩
        | error e => rw [hp] at h; simp at h
      · simp only [fetch_jira_issue, if_neg hs] at h
        simp at h
    · rintro ⟨hs, sd, hp⟩
      simp only [fetch_jira_issue, if_pos hs, hp]
  · intro b u k i r sd hs hp
    simp only [fetch_jira_issue, if_pos hs, hp]
  · intro b u k p ft fd m c it e; rfl
  · intro b u k p ft fd m c it r
    constructor
    · intro h
      by_cases hs : r.status = 201
      · simp only [create_jira_issue, if_pos hs] at h
        cases hp : createParseKey r.jsonBody with
        | ok kk => exact ⟨hs, kk, rfl⟩
        | error e => rw [hp] at h; simp at h
      · simp only [create_jira_issue, if_neg hs] at h
        simp at h
    · rintro ⟨hs, kk, hp⟩
      simp only [create_jira_issue, if_pos hs, hp]
  · intro b u k p ft fd m c it r kk hs hp
    simp only [create_jira_issue, if_pos hs, hp]

/-- C5 witness: concrete runs of the three wrappers — a parse failure on a
200 fetch, a clean 200 fetch, and a clean 201 create. -/
theorem jira_wrappers_spec_witness :
    fetch_jira_issue "b" "u" "k" "I-1"
        (.resp ⟨200, "",
          .ok (.jobj [("fields", .jobj [("summary", .jstr "S"),
            ("description", .jstr "plain")])])⟩) =
      (some (.jstr "S"), some (.jstr "plain"), none) ∧
    create_jira_issue "b" "u" "k" "P" "T" "D" "M" "C" "Task"
        (.resp ⟨201, "", .ok (.jobj [("key", .jstr "P-9")])⟩) =
      (some (.jstr "P-9"),
       some (createPayload "P" "T" "D" "M" "C" "Task"), none) ∧
    get_issue_types "b" "u" "k" "P" (.resp ⟨404, "nf", .ok .jnull⟩) =
      ([], some ("Error fetching issue types: " ++ toString 404)) :=
  ⟨jira_wrappers_spec.2.2.2.2.2.2.1 "b" "u" "k" "I-1"
      ⟨200, "", .ok (.jobj [("fields", .jobj [("summary", .jstr "S"),
        ("description", .jstr "plain")])])⟩
      (.jstr "S", .jstr "plain") rfl rfl,
   jira_wrappers_spec.2.2.2.2.2.2.2.2.2 "b" "u" "k" "P" "T" "D" "M" "C" "Task"
      ⟨201, "", .ok (.jobj [("key", .jstr "P-9")])⟩ (.jstr "P-9") rfl rfl,
   jira_wrappers_spec.2.1 "b" "u" "k" "P" ⟨404, "nf", .ok .jnull⟩ (by decide)⟩

/-! ## BrowserTestRunner -/

/-- The final dict pushed on `result_queue`; `none` fields model absent
keys (the error dict carries only `success` and `error`). -/
structure ResultDict where
  success : Bool
  error : Option String := none
  result : Option String := none
  report_path : Option String := none
  report_dir : Option String := none
  mode : Option String := none
  test_data : Option PyTestData := none
  playwright_scripts : Option String := none
deriving DecidableEq, Repr

/-- State of a `BrowserTestRunner` (lines 914-919). The two queues are
lists (oldest first); `live` is a ghost counter of worker threads that
have been started and have not yet finished, used to state the
single-run invariant. -/
structure BrowserTestRunner where
  result_queue : List ResultDict
  status_queue : List String
  running : Bool
  current_report_dir : Option String
  live : Nat
deriving DecidableEq, Repr

/-- The freshly constructed runner (lines 914-919). -/
def initRunner : BrowserTestRunner := ⟨[], [], false, none, 0⟩

def pushStatus (st : BrowserTestRunner) (msg : String) : BrowserTestRunner :=
  { st with status_queue := st.status_queue ++ [msg] }

def pushStatuses (st : BrowserTestRunner) (msgs : List String) : BrowserTestRunner :=
  { st with status_queue := st.status_queue ++ msgs }

/-- The environment a worker run interacts with: the timestamp, the
outcomes of the fallible external steps (directory creation, test-data
write, the browser agent run) and the results of the two generators that
catch their own exceptions and return `None` on failure
(`generate_test_report`, `generate_playwright_scripts`). -/
structure WorkerEnv where
  timestamp : String
  mkdirResult : Except String Unit
  writeDataResult : Except String Unit
  browser_available : Bool
  agentRunResult : Except String String
  reportResult : Option String
  scriptsResult : Option String

/-- The `demo_steps` status strings of `run_demo_automation`
(lines 1114-1124), including the mangled characters of the source. -/
def demo_steps : List String :=
  ["🌐 Navigating to target URL...",
   "🔍 Analyzing page structure...",
   "� Loading test data context...",
   "�📝 Identifying form fields and inputs...",
   "🔐 Attempting authentication with test credentials...",
   "📋 Filling forms with generated test data...",
   "🔄 Testing form validations and submissions...",
   "📸 Capturing screenshots at each step...",
   "✅ Test execution completed with data validation!"]

/-- Stand-in for the external `json.dumps(test_data.get('data', {}), indent=2)`. -/
def jsonDumpsData : Option PyTestData → String
  | none => "No test data provided"
  | some td => renderDataEntries td.data

/-- Embedding of `BrowserTestRunner.run_demo_automation`
(lines 1112-1159): push the demo status strings and build the demo result
text. -/
def run_demo_automation (st : BrowserTestRunner) (url automation_task : String)
    (test_data : Option PyTestData) : BrowserTestRunner × String :=
  let st := pushStatuses st demo_steps
  let test_data_summary :=
    match test_data with
    | none => ""
    | some td =>
      "\nTest Data Summary (" ++ pyUpper td.source ++ " source):\n- Data fields available: " ++
      toString td.data.length ++
      "\n- Test data used for form filling and validation\n- Data source: " ++
      td.source ++ "\n"
  (st,
   "Enhanced Demo Test Automation Results:\n\nTarget URL: " ++ url ++
   "\nAutomation Task: " ++ pyTake automation_task 200 ++ "...\n" ++
   test_data_summary ++
   "\nSimulated Test Execution with Data:\n1. Successfully navigated to the target website\n2. Loaded and prepared test data for automation\n3. Identified interactive elements and form fields\n4. Applied test data contextually based on field types\n5. Executed validation testing with both valid and invalid data\n6. Captured screenshots and documented all interactions\n7. Generated comprehensive test results\n\nTest Data Applied:\n" ++
   jsonDumpsData test_data ++
   "\n\nStatus: Completed (Enhanced Demo Mode)\nNote: This is a demonstration with test data integration. Install browser-use and configure DeepSeek API for real automation.")

/-- The `except` + `finally` tail of the worker (lines 1096-1103): push the
error status, push the error dict (only `success` and `error` keys), clear
the running flag, retire the thread. -/
def finishErr (st : BrowserTestRunner) (e : String) : BrowserTestRunner :=
  let st := pushStatus st ("❌ Error: " ++ e)
  let d : ResultDict := { success := false, error := some e }
  { st with
    result_queue := (st.result_queue ++ [d]),
    running := false,
    live := st.live - 1 }

/-- Embedding of the worker body `run_in_thread` of
`BrowserTestRunner.run_browser_automation` (lines 1009-1103), with the
`try/except/finally` structure made explicit: any failing external step
falls through to `finishErr`; otherwise exactly the success dict of
lines 1086-1094 is pushed. The `finally` clause (`running := false`, and
the ghost thread retirement) runs on every path. -/
def run_in_thread (st0 : BrowserTestRunner) (env : WorkerEnv)
    (url automation_task api_key : String) (headless : Bool)
    (test_data : Option PyTestData) : BrowserTestRunner :=
  let st := pushStatus st0 "🔧 Initializing browser automation..."
  let report_name := "test_automation_" ++ env.timestamp
  let st := { st with current_report_dir := some ("automation_reports/" ++ report_name) }
  match env.mkdirResult with
  | .error e => finishErr st e
  | .ok _ =>
    let st := pushStatus st ("📁 Created report directory: " ++ report_name)
    let dataStep : Except String BrowserTestRunner :=
      match test_data with
      | none => .ok st
      | some td =>
        match env.writeDataResult with
        | .error e => .error e
        | .ok _ => .ok (pushStatus st ("💾 Test data saved: " ++
            toString td.data.length ++ " data fields"))
    match dataStep with
    | .error e => finishErr st e
    | .ok st =>
      let st := pushStatus st (if env.browser_available then
        "✅ Browser automation library loaded"
        else "⚠️ Browser automation not available, running in demo mode")
      let afterRun : BrowserTestRunner × Except String String :=
        if env.browser_available then
          let st := pushStatus st "🤖 Setting up AI agent..."
          let st := pushStatus st (if headless then "🌐 Starting browser (headless mode)..."
            else "🌐 Starting visible browser - watch your screen! 👁️")
          let st := pushStatus st (if headless then "⚡ Executing test automation in background..."
            else "⚡ Executing test automation - you can watch the browser! 🔍")
          match env.agentRunResult with
          | .error e => (st, .error e)
          | .ok res => (pushStatus st "✅ Test automation completed!", .ok res)
        else
          let st := pushStatus st "🔧 Running in demo mode with test data..."
          let res := run_demo_automation st url automation_task test_data
          (res.1, .ok res.2)
      match afterRun with
      | (st, .error e) => finishErr st e
      | (st, .ok result) =>
        let st := pushStatus st "📄 Generating test report..."
        let report_path := env.reportResult
        let test_name :=
          match test_data with
          | some td => (td.feature_type.getD "generic").capitalize ++ " Feature Test"
          | none => "Auto Generated Test"
        let playwright_result := env.scriptsResult
        let d : ResultDict :=
          { success := true,
            result := some result,
            report_path := report_path,
            report_dir := st.current_report_dir,
            mode := some (if env.browser_available then "real" else "demo"),
            test_data := test_data,
            playwright_scripts := playwright_result }
        { st with
          result_queue := (st.result_queue ++ [d]),
          running := false,
          live := st.live - 1 }

/-- Embedding of the launching part of
`BrowserTestRunner.run_browser_automation` (lines 1105-1110): start a
worker (ghost-incrementing `live`) and return `True` only when the
running flag is clear. -/
def run_browser_automation (st : BrowserTestRunner) : Bool × BrowserTestRunner :=
  if st.running = false then
    (true, { st with running := true, live := st.live + 1 })
  else
    (false, st)

/-- One scheduler step of the runner: either the UI thread calls
`run_browser_automation`, or a live worker thread finishes by executing
its body. -/
inductive RunnerStep : BrowserTestRunner → BrowserTestRunner → Prop where
  | call (st : BrowserTestRunner) : RunnerStep st (run_browser_automation st).2
  | finish (st : BrowserTestRunner) (env : WorkerEnv)
      (url automation_task api_key : String) (headless : Bool)
      (test_data : Option PyTestData) : 1 ≤ st.live →
      RunnerStep st (run_in_thread st env url automation_task api_key headless test_data)

/-- States reachable from a freshly constructed runner. -/
inductive RunnerReachable : BrowserTestRunner → Prop where
  | init : RunnerReachable initRunner
  | step {st st2 : BrowserTestRunner} : RunnerReachable st → RunnerStep st st2 →
      RunnerReachable st2

/-- The worker body completes without an escaping exception iff the
directory creation, the test-data write (when test data is given) and the
agent run (when the browser library is available) all succeed; the report
and script generators catch their own exceptions. -/
def workerOk (env : WorkerEnv) (td : Option PyTestData) : Bool :=
  (match env.mkdirResult with | .ok _ => true | .error _ => false) &&
  (match td, env.writeDataResult with
   | some _, .error _ => false
   | _, _ => true) &&
  (!env.browser_available ||
    (match env.agentRunResult with | .ok _ => true | .error _ => false))

theorem run_in_thread_final (st : BrowserTestRunner) (env : WorkerEnv)
    (url task api_key : String) (headless : Bool) (td : Option PyTestData) :
    (run_in_thread st env url task api_key headless td).running = false ∧
    (run_in_thread st env url task api_key headless td).live = st.live - 1 := by
  obtain ⟨ts, mk, wr, ba, ar, rp, sc⟩ := env
  cases mk with
  | error e => exact ⟨rfl, rfl⟩
  | ok u =>
    cases td with
    | none =>
      cases ba with
      | false => exact ⟨rfl, rfl⟩
      | true =>
        cases ar with
        | error e => exact ⟨rfl, rfl⟩
        | ok r => exact ⟨rfl, rfl⟩
    | some tdv =>
      cases wr with
      | error e => exact ⟨rfl, rfl⟩
      | ok u2 =>
        cases ba with
        | false => exact ⟨rfl, rfl⟩
        | true =>
          cases ar with
          | error e => exact ⟨rfl, rfl⟩
          | ok r => exact ⟨rfl, rfl⟩

/-- C1: every worker run pushes exactly one final dict on `result_queue`:
the success dict (carrying the result, report path, report directory,
mode, test data and Playwright-script info) when no exception escapes the
body, and `{success: False, error: <message>}` when one does; in both
cases the running flag is cleared when the worker finishes. -/
theorem run_browser_worker_spec (st : BrowserTestRunner) (env : WorkerEnv)
    (url task api_key : String) (headless : Bool) (td : Option PyTestData) :
    ((run_in_thread st env url task api_key headless td).running = false) ∧
    (∃ d : ResultDict,
      (run_in_thread st env url task api_key headless td).result_queue =
        st.result_queue ++ [d] ∧
      d.success = workerOk env td ∧
      (workerOk env td = true →
        d.error = none ∧ (∃ r, d.result = some r) ∧
        d.mode = some (if env.browser_available then "real" else "demo") ∧
        d.test_data = td ∧
        d.report_path = env.reportResult ∧
        d.playwright_scripts = env.scriptsResult ∧
        d.report_dir = some ("automation_reports/" ++
          ("test_automation_" ++ env.timestamp))) ∧
      (workerOk env td = false → ∃ e, d.error = some e)) := by
  obtain ⟨ts, mk, wr, ba, ar, rp, sc⟩ := env
  cases mk with
  | error e =>
    refine ⟨rfl, ⟨_, rfl, rfl, ?_, ?_⟩⟩
    · intro h; simp [workerOk] at h
    · intro h2; exact ⟨e, rfl⟩
  | ok u =>
    cases td with
    | none =>
      cases ba with
      | false =>
        refine ⟨rfl, ⟨_, rfl, rfl, ?_, ?_⟩⟩
        · intro h2
          exact ⟨rfl, ⟨_, rfl⟩, rfl, rfl, rfl, rfl, rfl⟩
        · intro h; simp [workerOk] at h
      | true =>
        cases ar with
        | error e =>
          refine ⟨rfl, ⟨_, rfl, rfl, ?_, ?_⟩⟩
          · intro h; simp [workerOk] at h
          · intro h2; exact ⟨e, rfl⟩
        | ok r =>
          refine ⟨rfl, ⟨_, rfl, rfl, ?_, ?_⟩⟩
          · intro h2
            exact ⟨rfl, ⟨_, rfl⟩, rfl, rfl, rfl, rfl, rfl⟩
          · intro h; simp [workerOk] at h
    | some tdv =>
      cases wr with
      | error e =>
        refine ⟨rfl, ⟨_, rfl, rfl, ?_, ?_⟩⟩
        · intro h; simp [workerOk] at h
        · intro h2; exact ⟨e, rfl⟩
      | ok u2 =>
        cases ba with
        | false =>
          refine ⟨rfl, ⟨_, rfl, rfl, ?_, ?_⟩⟩
          · intro h2
            exact ⟨rfl, ⟨_, rfl⟩, rfl, rfl, rfl, rfl, rfl⟩
          · intro h; simp [workerOk] at h
        | true =>
          cases ar with
          | error e =>
            refine ⟨rfl, ⟨_, rfl, rfl, ?_, ?_⟩⟩
            · intro h; simp [workerOk] at h
            · intro h2; exact ⟨e, rfl⟩
          | ok r =>
            refine ⟨rfl, ⟨_, rfl, rfl, ?_, ?_⟩⟩
            · intro h2
              exact ⟨rfl, ⟨_, rfl⟩, rfl, rfl, rfl, rfl, rfl⟩
            · intro h; simp [workerOk] at h

/-- C1 witness: a concrete successful demo-mode run and a concrete failing
run (directory creation fails). -/
theorem run_browser_worker_spec_witness :
    (∃ d : ResultDict,
      (run_in_thread initRunner ⟨"20250101", .ok (), .ok (), false, .ok "r", some "p.html", none⟩
        "https://x" "task" "key" true none).result_queue =
          initRunner.result_queue ++ [d] ∧ d.error = none ∧ d.success = true) ∧
    (∃ d : ResultDict,
      (run_in_thread initRunner ⟨"20250101", .error "Permission denied", .ok (), false, .ok "r", none, none⟩
        "https://x" "task" "key" true none).result_queue =
          initRunner.result_queue ++ [d] ∧ d.success = false ∧
          ∃ e, d.error = some e) := by
  constructor
  · obtain ⟨hrun, d, hq, hs, himp, _⟩ := run_browser_worker_spec initRunner
      ⟨"20250101", .ok (), .ok (), false, .ok "r", some "p.html", none⟩
      "https://x" "task" "key" true none
    exact ⟨d, hq, (himp rfl).1, hs⟩
  · obtain ⟨hrun, d, hq, hs, _, himp⟩ := run_browser_worker_spec initRunner
      ⟨"20250101", .error "Permission denied", .ok (), false, .ok "r", none, none⟩
      "https://x" "task" "key" true none
    exact ⟨d, hq, hs, himp rfl⟩

/-- The single-run invariant: a worker thread is live exactly while the
running flag is set. -/
def runnerInv (st : BrowserTestRunner) : Prop :=
  st.live = if st.running then 1 else 0

theorem runnerInv_step {st st2 : BrowserTestRunner} (h : RunnerStep st st2)
    (hinv : runnerInv st) : runnerInv st2 := by
  cases h with
  | call =>
    unfold run_browser_automation
    by_cases hr : st.running = false
    · rw [if_pos hr]
      unfold runnerInv at *
      rw [hr] at hinv
      simp at hinv
      simp [hinv]
    · rw [if_neg hr]
      exact hinv
  | finish env url task api_key headless td hlive =>
    have hfin := run_in_thread_final st env url task api_key headless td
    unfold runnerInv at *
    rw [hfin.1, hfin.2]
    by_cases hr : st.running
    · rw [if_pos hr] at hinv
      simp [hinv]
    · rw [if_neg hr] at hinv
      omega
  
theorem reachable_inv (st : BrowserTestRunner) (h : RunnerReachable st) :
    runnerInv st := by
  induction h with
  | init => rfl
  | step h1 h2 ih => exact runnerInv_step h2 ih

/-- C2: `run_browser_automation` returns `True` and starts a worker iff the
running flag is clear at the call; when the flag is set it returns `False`
and leaves the runner unchanged; consequently at most one worker thread is
live in every reachable state. -/
theorem run_browser_automation_spec :
    (∀ st : BrowserTestRunner,
      (run_browser_automation st).1 = true ↔ st.running = false) ∧
    (∀ st : BrowserTestRunner, st.running = false →
      (run_browser_automation st).2 =
        { st with running := true, live := st.live + 1 }) ∧
    (∀ st : BrowserTestRunner, st.running = true →
      (run_browser_automation st).1 = false ∧
      (run_browser_automation st).2 = st) ∧
    (∀ st : BrowserTestRunner, RunnerReachable st → st.live ≤ 1) := by
  refine ⟨?_, ?_, ?_, ?_⟩
  · intro st
    constructor
    · intro h
      by_cases hr : st.running = false
      · exact hr
      · simp [run_browser_automation, hr] at h
    · intro hr
      simp [run_browser_automation, hr]
  · intro st hr
    simp [run_browser_automation, hr]
  · intro st hr
    have hr2 : ¬st.running = false := by simp [hr]
    constructor <;> simp [run_browser_automation, hr2]
  · intro st h
    have hinv := reachable_inv st h
    unfold runnerInv at hinv
    rw [hinv]
    by_cases hr : st.running <;> simp [hr]

/-- C2 witness: a running runner is left unchanged with `False` returned,
and the freshly constructed runner satisfies the liveness bound. -/
theorem run_browser_automation_spec_witness :
    (run_browser_automation { initRunner with running := true }).1 = false ∧
    (run_browser_automation { initRunner with running := true }).2 =
      { initRunner with running := true } ∧
    initRunner.live ≤ 1 :=
  ⟨(run_browser_automation_spec.2.2.1 { initRunner with running := true } rfl).1,
   (run_browser_automation_spec.2.2.1 { initRunner with running := true } rfl).2,
   run_browser_automation_spec.2.2.2 initRunner RunnerReachable.init⟩
